import Mathlib

/-
  Verification of the order-lifecycle / billing-adjustment subsystem of the
  QR-menu application (source: src/nza3.py).  Python functions are shallowly
  embedded as executable Lean definitions; Firestore documents become assoc
  lists keyed by document id, and the Streamlit dashboard handlers become
  state-transforming functions on an explicit store state.
-/

namespace QRMenu

/-! ## Python-flavoured character and string helpers -/

/-- The whitespace characters removed by Python `str.strip()` (ASCII range;
the claims never exercise the additional Unicode whitespace code points). -/
def isPySpace (c : Char) : Bool :=
  c = ' ' || c = '\t' || c = '\n' || c = '\x0d' || c = '\x0b' || c = '\x0c'

/-- Drop leading and trailing whitespace from a character list,
modelling Python `str.strip()`. -/
def pyStripChars (l : List Char) : List Char :=
  ((l.dropWhile isPySpace).reverse.dropWhile isPySpace).reverse

/-- `str.strip()` on a `String`. -/
def pyStrip (s : String) : String :=
  String.mk (pyStripChars s.data)

/-- The ten Myanmar-script digit characters `၀..၉` (U+1040..U+1049),
from the `myanmar_digits` constant in `parse_price` (nza3.py lines 440). -/
def isMyDigit (c : Char) : Bool :=
  0x1040 ≤ c.toNat && c.toNat ≤ 0x1049

/-- A decimal-digit test covering the two numeral scripts this application
uses (ASCII and Myanmar).  It models Python `str.isdigit` on the characters
reachable in this code base: `parse_price` transliterates Myanmar digits to
ASCII before filtering, and order-item strings mix only these two scripts. -/
def pyIsDigit (c : Char) : Bool :=
  c.isDigit || isMyDigit c

/-- Numeric value of a digit character accepted by `pyIsDigit`
(0 for anything else). -/
def pyDigitVal (c : Char) : Nat :=
  if c.isDigit then c.toNat - '0'.toNat
  else if isMyDigit c then c.toNat - 0x1040
  else 0

/-- Base-10 value of a digit string, as Python `int` computes it on a
string of decimal-digit characters. -/
def digitsVal (ds : List Char) : Nat :=
  ds.foldl (fun n c => n * 10 + pyDigitVal c) 0

/-- Transliterate one character: a Myanmar digit becomes its ASCII
equivalent, everything else is unchanged.  Models the ten sequential
`str.replace` calls in `parse_price` (nza3.py lines 443-445); since each
replacement is a distinct single character mapped to an ASCII digit, the
ten replaces amount to this character-wise map. -/
def myToAscii (c : Char) : Char :=
  if isMyDigit c then Char.ofNat (c.toNat - 0x1040 + '0'.toNat) else c

/-- `parse_price` (nza3.py lines 438-450): transliterate Myanmar digits to
ASCII, keep only digit characters, parse the remainder as a base-10
integer; if no digits remain (Python `int("")` raises, caught by the bare
`except`) the result is 0.  After transliteration every kept character is
an ASCII digit, so the `int` call can only fail on the empty string. -/
def parse_price (price_str : String) : Nat :=
  let result := price_str.data.map myToAscii
  let ds := result.filter pyIsDigit
  if ds.isEmpty then 0 else digitsVal ds

/-! ## Order item parser -/

/-- Split a character list at every occurrence of the character `c`,
modelling Python `str.split('|')` (so the empty input yields one empty
segment, as `"".split('|') == ['']`). -/
def splitChar (c : Char) : List Char → List (List Char)
  | [] => [[]]
  | x :: rest =>
    match splitChar c rest with
    | [] => [[]]
    | t :: ts => if x = c then [] :: t :: ts else (x :: t) :: ts

/-- `leadsWith p l` holds when `p` is an initial segment of `l`. -/
def leadsWith : List Char → List Char → Bool
  | [], _ => true
  | _ :: _, [] => false
  | a :: p, b :: l => a = b && leadsWith p l

/-- Fuel-driven worker splitting `l` at every non-overlapping occurrence of
the separator `s0 :: srest`, scanning left to right (Python `str.split` on
a multi-character separator).  `fuel ≥ l.length` makes the first branch
unreachable. -/
def splitSubGo (s0 : Char) (srest : List Char) : Nat → List Char → List Char → List (List Char)
  | 0, l, cur => [cur.reverse ++ l]
  | _ + 1, [], cur => [cur.reverse]
  | fuel + 1, c :: rest, cur =>
    if leadsWith (s0 :: srest) (c :: rest) then
      cur.reverse :: splitSubGo s0 srest fuel (rest.drop srest.length) []
    else
      splitSubGo s0 srest fuel rest (c :: cur)

/-- Split at every occurrence of the (non-empty) separator `s0 :: srest`.
Because the separator `" x"` cannot overlap itself, the rightmost
occurrence found this way coincides with the one Python
`str.rsplit(' x', 1)` splits at. -/
def splitSub (s0 : Char) (srest : List Char) (l : List Char) : List (List Char) :=
  splitSubGo s0 srest (l.length + 1) l []

/-- Join segments back with the separator (used to rebuild the part of a
segment before the rightmost `" x"`, i.e. Python `rsplit(' x', 1)[0]`). -/
def joinWith (sep : List Char) : List (List Char) → List Char
  | [] => []
  | [x] => x
  | x :: y :: rest => x ++ sep ++ joinWith sep (y :: rest)

/-- Per-segment rule of `parse_order_items` (nza3.py lines 280-290), on an
already-stripped non-empty segment: if the segment contains `" x"` and its
last character is a digit, split at the rightmost `" x"` into a name and a
quantity tail, the quantity being the digit characters of the tail (1 when
there are none; with the two decimal scripts in use, Python `int` cannot
fail on the kept digits, so the `except: qty = 1` arm is the `or '1'`
default); otherwise the whole segment is the name with quantity 1. -/
def parseSeg (part : List Char) : String × String × Nat :=
  let pieces := splitSub ' ' ['x'] part
  let lastIsDigit := match part.getLast? with
    | some c => pyIsDigit c
    | none => false
  if pieces.length ≥ 2 && lastIsDigit then
    let name := pyStripChars (joinWith [' ', 'x'] pieces.dropLast)
    let tail := pyStripChars ((pieces.getLast?).getD [])
    let ds := tail.filter pyIsDigit
    let qty := if ds.isEmpty then 1 else digitsVal ds
    (String.mk part, String.mk name, qty)
  else
    (String.mk part, String.mk part, 1)

/-- One iteration of the `parse_order_items` loop: strip the part, skip it
when empty, otherwise append its parsed triple. -/
def itemFold (out : List (String × String × Nat)) (part0 : List Char) :
    List (String × String × Nat) :=
  let part := pyStripChars part0
  if part = [] then out else out ++ [parseSeg part]

/-- `parse_order_items` (nza3.py lines 271-291): on a string that strips to
empty, return `[]`; otherwise split on `'|'`, strip each part, skip empty
parts, and append the parsed triple `(display_text, item_name, qty)` for
each remaining part, in order. -/
def parse_order_items (items_str : String) : List (String × String × Nat) :=
  if pyStripChars items_str.data = [] then []
  else (splitChar '|' items_str.data).foldl itemFold []

/-! ## Availability adjustment engine -/

/-- A menu-item document as the adjustment engine reads it: the `name` and
the free-text `price` field (nza3.py `save_menu_item`, lines 201-210). -/
structure MenuItem where
  name : String
  price : String
deriving DecidableEq, Repr

/-- The `name_to_price` dictionary built in `compute_adjusted_total`
(nza3.py lines 295-299): stripped non-empty names map to the parsed price,
a later menu entry with the same name overwriting an earlier one.  Entries
are prepended so `List.lookup` finds the most recent binding, matching
Python dict assignment. -/
def menuAssoc (menu : List MenuItem) : List (String × Nat) :=
  menu.foldl
    (fun acc m =>
      let nm := pyStrip m.name
      if nm = "" then acc else (nm, parse_price m.price) :: acc)
    []

/-- `compute_adjusted_total` (nza3.py lines 293-305): sum
`price × qty` over the unavailable pairs, with price 0 for a name absent
from the menu, and return `(max 0 (total − subtracted), subtracted)`. -/
def compute_adjusted_total (order_total_int : Int) (menu_items : List MenuItem)
    (unavailable : List (String × Nat)) : Int × Nat :=
  let assoc := menuAssoc menu_items
  let subtract := unavailable.foldl
    (fun s p => s + ((List.lookup (pyStrip p.1) assoc).getD 0) * p.2) 0
  (max 0 (order_total_int - subtract), subtract)

/-! ## Decimal rendering and Python `int()` on strings -/

/-- Fuel-driven most-significant-first decimal digits of a natural number
(`fuel ≥ n` suffices; the fuel keeps the recursion structural so concrete
evaluation reduces in the kernel). -/
def natDecChars : Nat → Nat → List Char
  | 0, _ => []
  | f + 1, n =>
    if n < 10 then [Nat.digitChar n]
    else natDecChars f (n / 10) ++ [Nat.digitChar (n % 10)]

/-- Python `str(int(i))`: canonical decimal rendering of an integer. -/
def intToDec (i : Int) : String :=
  if i < 0 then String.mk ('-' :: natDecChars i.natAbs i.natAbs)
  else String.mk (natDecChars (i.toNat + 1) i.toNat)

/-- Python `int(s)` on a string: strip whitespace, allow one sign, then
require a non-empty run of decimal digits; `none` when the conversion
would raise `ValueError`. -/
def pyIntOfChars (l : List Char) : Option Int :=
  let t := pyStripChars l
  let core : List Char → Option Nat := fun ds =>
    if ds.isEmpty || !(ds.all pyIsDigit) then none else some (digitsVal ds)
  match t with
  | '-' :: ds => (core ds).map (fun n => -(n : Int))
  | '+' :: ds => (core ds).map (fun n => (n : Int))
  | ds => (core ds).map (fun n => (n : Int))

/-- Python `int(s)` on a `String`. -/
def pyIntDec (s : String) : Option Int :=
  pyIntOfChars s.data

/-! ## Data model: order documents, sales documents, store state -/

/-- The three order status strings the dashboard writes
(`'pending' | 'preparing' | 'completed'`). -/
inductive OrderStatus where
  | pending
  | preparing
  | completed
deriving DecidableEq, Repr

/-- Position of a status along `pending → preparing → completed`. -/
def statusRank : OrderStatus → Nat
  | .pending => 0
  | .preparing => 1
  | .completed => 2

/-- An order document (`save_order`, nza3.py lines 229-240).  `total` is
the client-computed integer; `unavailable_items` and `adjusted_total` are
absent until staff set them, `adjusted_total` being stored as the string
`str(int(x))` (nza3.py line 267). -/
structure OrderDoc where
  table_no : String
  items : String
  total : Int
  status : OrderStatus
  unavailable_items : Option String := none
  adjusted_total : Option String := none
  timestamp : String
deriving DecidableEq, Repr

/-- The document `save_order` creates: status `pending`, no
unavailable-items or adjusted-total fields. -/
def newOrderDoc (table items : String) (total : Int) (ts : String) : OrderDoc :=
  { table_no := table, items := items, total := total,
    status := .pending, timestamp := ts }

/-- A daily-sales document; the two numeric fields are optional so that
`get_daily_sales`'s per-field `dict.get(_, 0)` defaults are observable. -/
structure SalesDoc where
  total : Option Int := none
  order_count : Option Int := none
deriving DecidableEq, Repr

/-- Per-store state touched by the dashboard: the live menu, the orders
subcollection and the daily-sales subcollection, the latter two as assoc
lists keyed by document id (order id, resp. `YYYY-MM-DD` date). -/
structure StoreState where
  menu_items : List MenuItem
  orders : List (String × OrderDoc)
  daily_sales : List (String × SalesDoc)
deriving DecidableEq, Repr

/-- Firestore document update within a keyed collection: replace the value
at key `k` by `f` applied to it. -/
def updateAssoc {α : Type} (k : String) (f : α → α) : List (String × α) → List (String × α)
  | [] => []
  | (x, v) :: t => (if x = k then (x, f v) else (x, v)) :: updateAssoc k f t

/-- `update_order_status` (nza3.py lines 242-247): overwrite the `status`
field of one order document. -/
def update_order_status (oid : String) (new_status : OrderStatus)
    (orders : List (String × OrderDoc)) : List (String × OrderDoc) :=
  updateAssoc oid (fun o => { o with status := new_status }) orders

/-- `update_order_unavailable` (nza3.py lines 263-269): set
`unavailable_items` to the stripped string, and, only when an adjusted
total is supplied (`is not None`), set `adjusted_total` to `str(int(x))`;
otherwise that field is left untouched. -/
def update_order_unavailable (oid : String) (unavailable_items_str : String)
    (adjusted_total : Option Int) (orders : List (String × OrderDoc)) :
    List (String × OrderDoc) :=
  updateAssoc oid
    (fun o =>
      match adjusted_total with
      | some a =>
          { o with unavailable_items := some (pyStrip unavailable_items_str),
                   adjusted_total := some (intToDec a) }
      | none => { o with unavailable_items := some (pyStrip unavailable_items_str) })
    orders

/-- `add_to_daily_sales` (nza3.py lines 312-332): read today's document;
if present, write back its `total`/`order_count` (each defaulting to 0
when the field is missing) plus the increment; otherwise create the
document with `total = amount, order_count = 1`. -/
def add_to_daily_sales (today : String) (amount : Int)
    (sales : List (String × SalesDoc)) : List (String × SalesDoc) :=
  match List.lookup today sales with
  | some d =>
      updateAssoc today
        (fun x => { x with total := some (d.total.getD 0 + amount),
                           order_count := some (d.order_count.getD 0 + 1) })
        sales
  | none => (today, { total := some amount, order_count := some 1 }) :: sales

/-- `get_daily_sales` (nza3.py lines 334-343): today's `(total,
order_count)`, each field defaulting to 0, and `(0, 0)` when no document
exists for today. -/
def get_daily_sales (today : String) (sales : List (String × SalesDoc)) : Int × Int :=
  match List.lookup today sales with
  | some d => (d.total.getD 0, d.order_count.getD 0)
  | none => (0, 0)

/-! ## Dashboard handlers (counter dashboard, nza3.py lines 1462-1526) -/

/-- The effective total the Complete handler books, per
`int(order.get('adjusted_total') or order['total'])` (nza3.py line 1519):
a missing `adjusted_total`, or the (never actually stored) empty string,
is falsy and falls back to `total`; otherwise the stored decimal string is
converted with `int`, `none` meaning the conversion raises and the
surrounding `try` skips the booking. -/
def pyEffTotal (o : OrderDoc) : Option Int :=
  match o.adjusted_total with
  | some s => if s = "" then some o.total else pyIntDec s
  | none => some o.total

/-- Body of the Complete button handler (nza3.py lines 1516-1526), for the
order document the handler holds: inside a `try`, compute the effective
total and add it to today's daily sales (skipping the booking when the
`int` conversion raises), then unconditionally mark the order `completed`.
Note there is no check that the order is not already `completed`. -/
def completeHandler (today oid : String) (st : StoreState) : StoreState :=
  match List.lookup oid st.orders with
  | none => st
  | some o =>
      let sales1 :=
        match pyEffTotal o with
        | some t => add_to_daily_sales today t st.daily_sales
        | none => st.daily_sales
      { st with daily_sales := sales1,
                orders := update_order_status oid .completed st.orders }

/-- Join checked item names with `", "` (nza3.py line 1505). -/
def joinCommaSp : List String → String
  | [] => ""
  | n :: rest => rest.foldl (fun acc m => acc ++ ", " ++ m) n

/-- The Preparing button handler (nza3.py lines 1502-1514), reachable only
for an order rendered with status `pending` (the `if order['status'] ==
'pending'` guard): join the checked `(name, qty)` pairs into a
comma-separated name list, recompute the adjusted total against the live
menu, persist both via `update_order_unavailable`, then set status
`preparing`.  The adjusted total is always passed (it equals
`max 0 total` when nothing is checked), so `adjusted_total` is always
written. -/
def preparingHandler (oid : String) (checked : List (String × Nat))
    (st : StoreState) : StoreState :=
  match List.lookup oid st.orders with
  | none => st
  | some o =>
      if o.status = .pending then
        let unavNames := joinCommaSp (checked.map Prod.fst)
        let adjusted := (compute_adjusted_total o.total st.menu_items checked).1
        let orders1 := update_order_unavailable oid unavNames (some adjusted) st.orders
        { st with orders := update_order_status oid .preparing orders1 }
      else st

/-- Whether an order is shown in the active list (nza3.py line 1462:
status in `['pending', 'preparing']`), which is where the Complete button
is rendered. -/
def isActiveStatus : OrderStatus → Bool
  | .pending => true
  | .preparing => true
  | .completed => false

/-- A Complete click as deliverable through a freshly rendered dashboard:
the button exists only for an order in the active (pending/preparing)
list; clicking it runs `completeHandler`. -/
def clickComplete (today oid : String) (st : StoreState) : StoreState :=
  match List.lookup oid st.orders with
  | some o => if isActiveStatus o.status then completeHandler today oid st else st
  | none => st

/-- One dashboard interaction: a Preparing click with a checked
unavailable-item list, a Complete click, or a pure read (refresh /
customer status poll), which mutates nothing. -/
inductive DashAct where
  | markPreparing (oid : String) (checked : List (String × Nat))
  | markCompleted (oid : String)
  | refresh
deriving Repr

/-- Apply one dashboard interaction against fresh state (the source is a
single-threaded request/response loop: each interaction re-reads state
before its guards run). -/
def applyDash (today : String) (st : StoreState) : DashAct → StoreState
  | .markPreparing oid checked => preparingHandler oid checked st
  | .markCompleted oid => clickComplete today oid st
  | .refresh => st

/-- Run a sequence of dashboard interactions. -/
def runDash (today : String) (st : StoreState) (acts : List DashAct) : StoreState :=
  acts.foldl (applyDash today) st

/-! ## Cleanup (nza3.py lines 385-406) and store deletion (lines 168-180) -/

/-- Deletion criterion of `auto_cleanup_completed_orders`: the stream is
filtered to `status == 'completed'`, and a streamed order is deleted when
its timestamp is non-empty (truthy) and does not start with today's date. -/
def cleanupDeletes (today : String) (o : OrderDoc) : Bool :=
  o.status = .completed && !(o.timestamp = "") && !(leadsWith today.data o.timestamp.data)

/-- `auto_cleanup_completed_orders` (nza3.py lines 385-406): scan the
orders, delete every completed order from a previous day, and return the
surviving collection together with the deleted count. -/
def auto_cleanup_completed_orders (today : String)
    (orders : List (String × OrderDoc)) : List (String × OrderDoc) × Nat :=
  orders.foldl
    (fun acc p =>
      if cleanupDeletes today p.2 then (acc.1, acc.2 + 1) else (acc.1 ++ [p], acc.2))
    ([], 0)

/-- A store document with its four subcollections, by document id, plus
the store document itself (for `delete_store`). -/
structure StoreTree where
  docPresent : Bool
  categories : List String
  menu_items : List String
  orders : List String
  daily_sales : List String
deriving DecidableEq, Repr

/-- `delete_store` (nza3.py lines 168-180): stream-delete every document
of the `categories`, `menu_items` and `orders` subcollections, then delete
the store document.  The `daily_sales` subcollection is not in the loop's
list, and deleting a Firestore parent document does not delete its
subcollections, so those documents survive. -/
def delete_store (t : StoreTree) : StoreTree :=
  { docPresent := false, categories := [], menu_items := [], orders := [],
    daily_sales := t.daily_sales }

/-! ## Concrete fixtures used by the theorems below -/

/-- A store with one pending order of total 5000 and no sales yet. -/
def c1State : StoreState :=
  { menu_items := [],
    orders := [("o1", newOrderDoc "7" "Tea x1" 5000 "2026-10-12 09:00:00")],
    daily_sales := [] }

/-- The cafe1 scenario: menu item "Latte" priced 3000. -/
def c4Menu : List MenuItem := [⟨"Latte", "3000"⟩]

/-- The submitted order `{table: "5", items: "Latte x2", total: 6000}`. -/
def c4Order : OrderDoc := newOrderDoc "5" "Latte x2" 6000 "2026-10-12 10:00:00"

/-- Store state right after the order is submitted. -/
def c4S0 : StoreState := ⟨c4Menu, [("ord1", c4Order)], []⟩

/-- Staff checks every parsed row of the order as unavailable (here the
single row "Latte x2"), producing the `(name, qty)` list the Preparing
handler receives. -/
def c4Checked : List (String × Nat) :=
  (parse_order_items "Latte x2").map (fun r => (r.2.1, r.2.2))

/-- State after the Preparing click with "Latte" checked. -/
def c4S1 : StoreState := preparingHandler "ord1" c4Checked c4S0

/-- State after the Complete click. -/
def c4S2 : StoreState := clickComplete "2026-10-12" "ord1" c4S1

/-- A store tree with one document in each subcollection. -/
def c5Tree : StoreTree := ⟨true, ["catA"], ["item1"], ["o1"], ["2026-09-01"]⟩

/-- A store with one pending order of total 6000 (for the
no-unavailable-items Preparing click). -/
def c6State : StoreState :=
  { menu_items := [],
    orders := [("o6", newOrderDoc "2" "Water" 6000 "2026-10-12 09:00:00")],
    daily_sales := [] }

/-! ## Helper lemmas -/

/-- Folding an addition over a list starting from `n` is `n` plus the sum
of the mapped list. -/
theorem foldl_add_eq_sum {α : Type} (f : α → Nat) (l : List α) (n : Nat) :
    l.foldl (fun s p => s + f p) n = n + (l.map f).sum := by
  induction l generalizing n with
  | nil => simp
  | cons a t ih => simp [List.foldl_cons, ih, Nat.add_assoc]

/-- Every status rank is at most the rank of `completed`. -/
theorem statusRank_le_two (s : OrderStatus) : statusRank s ≤ 2 := by
  cases s <;> simp [statusRank]

/-! ## C7: the price parser -/

/-- C7: `parse_price` is total and deterministic: on every string it
returns a non-negative integer, it returns 0 whenever no digit characters
remain after transliteration, and `parse_price "၂၅၀၀" = 2500`,
`parse_price "abc" = 0`, `parse_price "2,500 Ks" = 2500`,
`parse_price "" = 0`. -/
theorem c7_parse_price_total :
    (∀ s : String, 0 ≤ (parse_price s : Int)) ∧
    parse_price "၂၅၀၀" = 2500 ∧
    parse_price "abc" = 0 ∧
    parse_price "2,500 Ks" = 2500 ∧
    parse_price "" = 0 ∧
    (∀ s : String, (s.data.map myToAscii).filter pyIsDigit = [] → parse_price s = 0) := by
  refine ⟨fun s => Int.ofNat_nonneg _, by decide, by decide, by decide, by decide, ?_⟩
  intro s h
  simp [parse_price, h]

/-- Witness for C7: the no-digits clause applied at the concrete input
`"Ks"`. -/
theorem c7_witness : parse_price "Ks" = 0 :=
  c7_parse_price_total.2.2.2.2.2 "Ks" (by decide)

/-! ## C10: reading today's daily sales -/

/-- C10: `get_daily_sales` returns `(0, 0)` when no document exists for
today, and when one exists each of the `total` and `order_count` fields
individually defaults to 0 when missing. -/
theorem c10_get_daily_sales_defaults (today : String) (sales : List (String × SalesDoc)) :
    (List.lookup today sales = none → get_daily_sales today sales = (0, 0)) ∧
    (∀ d, List.lookup today sales = some d →
      get_daily_sales today sales = (d.total.getD 0, d.order_count.getD 0)) := by
  constructor
  · intro h
    simp [get_daily_sales, h]
  · intro d h
    simp [get_daily_sales, h]

/-- Witness for C10: the empty collection yields `(0, 0)`, and a document
with a missing `total` field yields `(0, 3)`. -/
theorem c10_witness :
    get_daily_sales "2026-10-12" [] = (0, 0) ∧
    get_daily_sales "2026-10-12" [("2026-10-12", ⟨none, some 3⟩)] = (0, 3) :=
  ⟨(c10_get_daily_sales_defaults "2026-10-12" []).1 rfl,
   (c10_get_daily_sales_defaults "2026-10-12" [("2026-10-12", ⟨none, some 3⟩)]).2
     ⟨none, some 3⟩ rfl⟩

/-! ## C5: store deletion -/

/-- C5 (refuting evidence): `delete_store` empties the categories,
menu-items and orders subcollections and removes the store document, but
the daily-sales documents survive, so an entity does outlive its store.
This contradicts the function's own docstring ("Delete store and all
subcollections"). -/
theorem c5_delete_store_keeps_daily_sales :
    (delete_store c5Tree).categories = [] ∧
    (delete_store c5Tree).menu_items = [] ∧
    (delete_store c5Tree).orders = [] ∧
    (delete_store c5Tree).docPresent = false ∧
    (delete_store c5Tree).daily_sales = ["2026-09-01"] ∧
    ¬(delete_store c5Tree).daily_sales = [] := by
  refine ⟨rfl, rfl, rfl, rfl, rfl, by decide⟩

/-! ## C1: double completion double-books -/

/-- C1 (refuting evidence): the Complete handler body has no idempotency
or status guard, so invoking it twice in a row on the same order of total
5000 books `(10000, 2)` into the day's aggregate, where the first
invocation alone books `(5000, 1)`. -/
theorem c1_double_complete_double_books :
    get_daily_sales "2026-10-12"
      (completeHandler "2026-10-12" "o1" c1State).daily_sales = (5000, 1) ∧
    get_daily_sales "2026-10-12"
      (completeHandler "2026-10-12" "o1"
        (completeHandler "2026-10-12" "o1" c1State)).daily_sales = (10000, 2) := by
  exact ⟨by decide, by decide⟩

/-! ## C4: the end-to-end cafe1 scenario -/

/-- C4: submitting `{table: "5", items: "Latte x2", total: 6000}` against
a menu with "Latte" priced 3000 creates a pending order; the Preparing
click with "Latte" checked persists `unavailable_items = "Latte"`,
`adjusted_total = "0"` and status `preparing`; the Complete click sets
status `completed` and increments today's aggregate by 0 (one order, total
0), not 6000. -/
theorem c4_end_to_end_scenario :
    c4Order.status = .pending ∧
    c4Checked = [("Latte", 2)] ∧
    (List.lookup "ord1" c4S1.orders).map (fun o => o.unavailable_items)
      = some (some "Latte") ∧
    (List.lookup "ord1" c4S1.orders).map (fun o => o.adjusted_total)
      = some (some "0") ∧
    (List.lookup "ord1" c4S1.orders).map (fun o => o.status) = some .preparing ∧
    (List.lookup "ord1" c4S2.orders).map (fun o => o.status) = some .completed ∧
    get_daily_sales "2026-10-12" c4S2.daily_sales = (0, 1) := by
  exact ⟨rfl, by decide, by decide, by decide, by decide, by decide, by decide⟩

/-! ## C3: the availability adjustment engine -/

/-- C3: for every non-negative original total, menu and unavailable list,
`compute_adjusted_total` returns `(adjusted, subtracted)` where
`subtracted` is the sum over the pairs of the looked-up menu price (0 when
the name is absent) times the quantity, `adjusted = max 0 (total −
subtracted)`, hence `adjusted ≥ 0`, `adjusted = total − subtracted` when
`subtracted ≤ total`, and `adjusted = 0` otherwise. -/
theorem c3_compute_adjusted_total_spec (total : Int) (menu : List MenuItem)
    (unav : List (String × Nat)) (htot : 0 ≤ total) :
    (compute_adjusted_total total menu unav).2
      = (unav.map
          (fun p => ((List.lookup (pyStrip p.1) (menuAssoc menu)).getD 0) * p.2)).sum ∧
    (compute_adjusted_total total menu unav).1
      = max 0 (total - ((compute_adjusted_total total menu unav).2 : Int)) ∧
    0 ≤ (compute_adjusted_total total menu unav).1 ∧
    (((compute_adjusted_total total menu unav).2 : Int) ≤ total →
      (compute_adjusted_total total menu unav).1
        = total - ((compute_adjusted_total total menu unav).2 : Int)) ∧
    (total < ((compute_adjusted_total total menu unav).2 : Int) →
      (compute_adjusted_total total menu unav).1 = 0) := by
  refine ⟨?_, rfl, le_max_left _ _, ?_, ?_⟩
  · simp [compute_adjusted_total, foldl_add_eq_sum]
  · intro hle
    have h0 : (0 : Int) ≤ total - (compute_adjusted_total total menu unav).2 := by omega
    simpa [compute_adjusted_total] using
      max_eq_right (a := (0 : Int))
        (b := total - (compute_adjusted_total total menu unav).2) h0
  · intro hlt
    have h0 : total - ((compute_adjusted_total total menu unav).2 : Int) ≤ 0 := by omega
    simpa [compute_adjusted_total] using
      max_eq_left (a := (0 : Int))
        (b := total - (compute_adjusted_total total menu unav).2) h0

/-- Witness for C3: the Latte scenario numbers, total 6000 and one pair
`("Latte", 2)` at price 3000, giving `subtracted = 6000` and
`adjusted = 0`. -/
theorem c3_witness :
    (compute_adjusted_total 6000 [⟨"Latte", "3000"⟩] [("Latte", 2)]).2
      = ([("Latte", 2)].map
          (fun p : String × Nat =>
            ((List.lookup (pyStrip p.1) (menuAssoc [⟨"Latte", "3000"⟩])).getD 0) * p.2)).sum ∧
    0 ≤ (compute_adjusted_total 6000 [⟨"Latte", "3000"⟩] [("Latte", 2)]).1 :=
  ⟨(c3_compute_adjusted_total_spec 6000 [⟨"Latte", "3000"⟩] [("Latte", 2)] (by decide)).1,
   (c3_compute_adjusted_total_spec 6000 [⟨"Latte", "3000"⟩] [("Latte", 2)] (by decide)).2.2.1⟩

/-! ## C9: cleanup idempotence -/

/-- The cleanup fold, started from any accumulator, keeps exactly the
non-matching orders (in order) and counts the matching ones. -/
theorem cleanup_foldl_eq (today : String) (orders : List (String × OrderDoc))
    (acc : List (String × OrderDoc) × Nat) :
    orders.foldl
      (fun acc p =>
        if cleanupDeletes today p.2 then (acc.1, acc.2 + 1) else (acc.1 ++ [p], acc.2))
      acc
    = (acc.1 ++ orders.filter (fun p => !cleanupDeletes today p.2),
       acc.2 + (orders.filter (fun p => cleanupDeletes today p.2)).length) := by
  induction orders generalizing acc with
  | nil => simp
  | cons a t ih =>
    by_cases h : cleanupDeletes today a.2
    · simp [List.foldl_cons, h, ih, List.filter_cons, Nat.add_comm, Nat.add_assoc,
        Nat.add_left_comm]
    · simp [List.foldl_cons, h, ih, List.filter_cons]

/-- `auto_cleanup_completed_orders` in closed form: the survivors are the
orders the deletion criterion rejects, and the count is the number it
accepts. -/
theorem cleanup_eq_filter (today : String) (orders : List (String × OrderDoc)) :
    auto_cleanup_completed_orders today orders
      = (orders.filter (fun p => !cleanupDeletes today p.2),
         (orders.filter (fun p => cleanupDeletes today p.2)).length) := by
  simpa [auto_cleanup_completed_orders] using cleanup_foldl_eq today orders ([], 0)

/-- C9: cleanup is idempotent: running
`auto_cleanup_completed_orders` again on the surviving orders, with the
day unchanged, deletes nothing — it returns the same collection and a
deleted count of 0. -/
theorem c9_cleanup_idempotent (today : String) (orders : List (String × OrderDoc)) :
    auto_cleanup_completed_orders today (auto_cleanup_completed_orders today orders).1
      = ((auto_cleanup_completed_orders today orders).1, 0) := by
  rw [cleanup_eq_filter today orders]
  dsimp only
  rw [cleanup_eq_filter]
  have hsub : ∀ p ∈ orders.filter (fun p => !cleanupDeletes today p.2),
      !cleanupDeletes today p.2 := by
    intro p hp
    exact (List.mem_filter.mp hp).2
  simp only [Prod.mk.injEq]
  constructor
  · apply List.filter_eq_self.mpr
    exact hsub
  · have : (orders.filter (fun p => !cleanupDeletes today p.2)).filter
        (fun p => cleanupDeletes today p.2) = [] := by
      apply List.filter_eq_nil_iff.mpr
      intro p hp
      have := (List.mem_filter.mp hp).2
      simp_all
    simp [this]

/-! ## C8: the order item parser -/

/-- A character list strips to empty exactly when all its characters are
whitespace. -/
theorem strip_eq_nil_iff (l : List Char) :
    pyStripChars l = [] ↔ ∀ c ∈ l, isPySpace c := by
  constructor
  · intro h c hc
    have h1 : (l.dropWhile isPySpace).reverse.dropWhile isPySpace = [] := by
      simpa [pyStripChars, List.reverse_eq_nil_iff] using h
    have h2 : ∀ x ∈ l.dropWhile isPySpace, isPySpace x := by
      intro x hx
      exact List.dropWhile_eq_nil_iff.mp h1 x (List.mem_reverse.mpr hx)
    rw [← List.takeWhile_append_dropWhile (p := isPySpace) (l := l)] at hc
    rcases List.mem_append.mp hc with h3 | h3
    · exact List.mem_takeWhile_imp h3
    · exact h2 c h3
  · intro h
    have : l.dropWhile isPySpace = [] := List.dropWhile_eq_nil_iff.mpr h
    simp [pyStripChars, this]

/-- Every character of every segment produced by `splitChar` comes from
the input. -/
theorem splitChar_mem (c : Char) :
    ∀ (l p : List Char), p ∈ splitChar c l → ∀ x ∈ p, x ∈ l := by
  intro l
  induction l with
  | nil =>
    intro p hp x hx
    simp [splitChar] at hp
    subst hp
    simp at hx
  | cons y rest ih =>
    intro p hp x hx
    cases hrec : splitChar c rest with
    | nil =>
      simp [splitChar, hrec] at hp
      subst hp
      simp at hx
    | cons t ts =>
      by_cases hy : y = c
      · simp [splitChar, hrec, hy] at hp
        rcases hp with hp | hp
        · subst hp; simp at hx
        · have : p ∈ splitChar c rest := by rw [hrec]; exact List.mem_cons.mpr hp
          exact List.mem_cons_of_mem y (ih p this x hx)
      · simp [splitChar, hrec, hy] at hp
        rcases hp with hp | hp
        · subst hp
          rcases List.mem_cons.mp hx with hx | hx
          · subst hx; exact List.mem_cons_self _ _
          · have ht : t ∈ splitChar c rest := by rw [hrec]; exact List.mem_cons_self _ _
            exact List.mem_cons_of_mem y (ih t ht x hx)
        · have : p ∈ splitChar c rest := by
            rw [hrec]; exact List.mem_cons_of_mem t hp
          exact List.mem_cons_of_mem y (ih p this x hx)


/-- The `parse_order_items` loop, from any accumulator, appends exactly
the parsed triples of the non-empty stripped segments, in order. -/
theorem itemFold_foldl_eq (parts : List (List Char)) (out : List (String × String × Nat)) :
    parts.foldl itemFold out
      = out ++ ((parts.map pyStripChars).filter (fun p => !p.isEmpty)).map parseSeg := by
  induction parts generalizing out with
  | nil => simp
  | cons a t ih =>
    by_cases h : pyStripChars a = []
    · simp [List.foldl_cons, itemFold, h, ih, List.filter_cons]
    · simp [List.foldl_cons, itemFold, h, ih, List.filter_cons,
        List.isEmpty_iff, List.append_assoc]

/-- C8: `parse_order_items` splits on the delimiter, strips each segment,
drops empty segments, preserves order, and applies the per-segment rule
`parseSeg` (rightmost `" x"` split with digit-suffix quantity, defaulting
to a whole-segment name with quantity 1); in particular
`parse_order_items "Tea x2 | Coffee x1" =
[("Tea x2","Tea",2), ("Coffee x1","Coffee",1)]` and
`parse_order_items "Water" = [("Water","Water",1)]`. -/
theorem c8_parse_order_items_spec :
    parse_order_items "Tea x2 | Coffee x1"
      = [("Tea x2", "Tea", 2), ("Coffee x1", "Coffee", 1)] ∧
    parse_order_items "Water" = [("Water", "Water", 1)] ∧
    ∀ s : String,
      parse_order_items s
        = (((splitChar '|' s.data).map pyStripChars).filter
            (fun p => !p.isEmpty)).map parseSeg := by
  refine ⟨by decide, by decide, ?_⟩
  intro s
  by_cases h : pyStripChars s.data = []
  · have hall : ∀ c ∈ s.data, isPySpace c := (strip_eq_nil_iff _).mp h
    have hnil : ((splitChar '|' s.data).map pyStripChars).filter
        (fun p => !p.isEmpty) = [] := by
      apply List.filter_eq_nil_iff.mpr
      intro p hp
      rcases List.mem_map.mp hp with ⟨q, hq, rfl⟩
      have hq0 : pyStripChars q = [] := by
        apply (strip_eq_nil_iff _).mpr
        intro x hx
        exact hall x (splitChar_mem '|' s.data q hq x hx)
      simp [hq0]
    simp [parse_order_items, h, hnil]
  · rw [parse_order_items, if_neg h, itemFold_foldl_eq, List.nil_append]

/-! ## C2: status monotonicity across dashboard interactions -/

/-- Unfolding `List.lookup` at a cons cell, with propositional equality in
place of the `BEq` test. -/
theorem lookup_cons {α : Type} (q x : String) (v : α) (t : List (String × α)) :
    List.lookup q ((x, v) :: t) = if q = x then some v else List.lookup q t := by
  by_cases h : q = x
  · simp [List.lookup, beq_iff_eq, h]
  · have hb : (q == x) = false := beq_eq_false_iff_ne.mpr h
    simp [List.lookup, hb, h]

/-- Looking a key up after a keyed document update: the stored value is
transformed exactly when the looked-up key is the updated one. -/
theorem lookup_updateAssoc {α : Type} (k q : String) (f : α → α) (l : List (String × α)) :
    List.lookup q (updateAssoc k f l)
      = if q = k then (List.lookup q l).map f else List.lookup q l := by
  induction l with
  | nil => by_cases h : q = k <;> simp [updateAssoc, h]
  | cons a t ih =>
    obtain ⟨a1, a2⟩ := a
    simp only [updateAssoc]
    by_cases hak : a1 = k
    · rw [if_pos hak]
      rw [lookup_cons, lookup_cons]
      by_cases hqa : q = a1
      · rw [if_pos hqa, if_pos hqa, if_pos (hqa.trans hak)]
        rfl
      · rw [if_neg hqa, if_neg hqa, ih]
    · rw [if_neg hak]
      rw [lookup_cons, lookup_cons]
      by_cases hqa : q = a1
      · rw [if_pos hqa, if_pos hqa, if_neg (fun hc => hak (hqa.symm.trans hc))]
      · rw [if_neg hqa, if_neg hqa, ih]

/-- One dashboard interaction never decreases an order's status rank, and
never removes the order. -/
theorem applyDash_mono (today : String) (a : DashAct) (st : StoreState) (oid : String)
    (o : OrderDoc) (h : List.lookup oid st.orders = some o) :
    ∃ o2, List.lookup oid (applyDash today st a).orders = some o2 ∧
      statusRank o.status ≤ statusRank o2.status := by
  cases a with
  | refresh => exact ⟨o, h, le_refl _⟩
  | markPreparing oid2 checked =>
    simp only [applyDash, preparingHandler]
    cases hl : List.lookup oid2 st.orders with
    | none => exact ⟨o, h, le_refl _⟩
    | some o3 =>
      dsimp only
      by_cases hs : o3.status = OrderStatus.pending
      · rw [if_pos hs]
        simp only [update_order_status, update_order_unavailable]
        by_cases he : oid = oid2
        · subst he
          have ho : o3 = o := Option.some_inj.mp (hl.symm.trans h)
          have hop : o.status = OrderStatus.pending := ho ▸ hs
          rw [lookup_updateAssoc, if_pos rfl, lookup_updateAssoc, if_pos rfl, h]
          exact ⟨_, rfl, by simp [hop, statusRank]⟩
        · rw [lookup_updateAssoc, if_neg he, lookup_updateAssoc, if_neg he, h]
          exact ⟨o, rfl, le_refl _⟩
      · rw [if_neg hs]
        exact ⟨o, h, le_refl _⟩
  | markCompleted oid2 =>
    simp only [applyDash, clickComplete]
    cases hl : List.lookup oid2 st.orders with
    | none => exact ⟨o, h, le_refl _⟩
    | some o3 =>
      dsimp only
      by_cases ha : isActiveStatus o3.status = true
      · rw [if_pos ha]
        simp only [completeHandler, hl, update_order_status]
        by_cases he : oid = oid2
        · subst he
          rw [lookup_updateAssoc, if_pos rfl, h]
          exact ⟨_, rfl, by simpa [statusRank] using statusRank_le_two o.status⟩
        · rw [lookup_updateAssoc, if_neg he, h]
          exact ⟨o, rfl, le_refl _⟩
      · rw [if_neg ha]
        exact ⟨o, h, le_refl _⟩

/-- C2: across any sequence of dashboard interactions (Preparing clicks,
Complete clicks, reads), an order's status rank never decreases: once
`preparing` it never reads back as `pending`, once `completed` never as
`pending` or `preparing`. -/
theorem c2_status_monotonic (today : String) (acts : List DashAct) (st : StoreState)
    (oid : String) (o o2 : OrderDoc) (h : List.lookup oid st.orders = some o)
    (h2 : List.lookup oid (runDash today st acts).orders = some o2) :
    statusRank o.status ≤ statusRank o2.status := by
  induction acts generalizing st o with
  | nil =>
    have : o = o2 := by
      rw [show runDash today st [] = st from rfl, h] at h2
      exact (Option.some.injEq _ _).mp h2
    exact this ▸ le_refl _
  | cons a t ih =>
    have hrun : runDash today st (a :: t) = runDash today (applyDash today st a) t := rfl
    rw [hrun] at h2
    obtain ⟨o1, ha, hr⟩ := applyDash_mono today a st oid o h
    exact le_trans hr (ih _ _ ha h2)

/-- Witness for C2: on the concrete store `c1State`, one Complete click
takes order "o1" from `pending` to `completed`, a rank increase. -/
theorem c2_witness :
    statusRank (newOrderDoc "7" "Tea x1" 5000 "2026-10-12 09:00:00").status ≤
      statusRank (OrderDoc.status
        { table_no := "7", items := "Tea x1", total := 5000,
          status := .completed, unavailable_items := none, adjusted_total := none,
          timestamp := "2026-10-12 09:00:00" }) :=
  c2_status_monotonic "2026-10-12" [DashAct.markCompleted "o1"] c1State "o1"
    _ _ (by decide) (by decide)

/-! ## C6: Preparing with no unavailable items -/

/-- C6 (refuting evidence): a Preparing click with nothing checked on the
pending 6000-total order "o6" leaves `adjusted_total` present (the string
"6000"), not absent as claimed, while `unavailable_items` does become the
empty string. -/
theorem c6_counterexample :
    (List.lookup "o6" (preparingHandler "o6" [] c6State).orders).map
      (fun o => o.adjusted_total) = some (some "6000") ∧
    ¬((List.lookup "o6" (preparingHandler "o6" [] c6State).orders).map
      (fun o => o.adjusted_total) = some none) ∧
    (List.lookup "o6" (preparingHandler "o6" [] c6State).orders).map
      (fun o => o.unavailable_items) = some (some "") :=
  ⟨by decide, by decide, by decide⟩

/-- C6 as amended: a Preparing click with no unavailable items selected
sets the order's `unavailable_items` to the empty string and does write
`adjusted_total`, equal to the decimal rendering of `max 0 total` (the
handler always passes the computed adjusted total, which with nothing
subtracted is the original total clamped at zero). -/
theorem c6_preparing_writes_adjusted_total (st : StoreState) (oid : String)
    (o : OrderDoc) (h : List.lookup oid st.orders = some o)
    (hp : o.status = OrderStatus.pending) :
    (List.lookup oid (preparingHandler oid [] st).orders).map
      (fun x => x.unavailable_items) = some (some "") ∧
    (List.lookup oid (preparingHandler oid [] st).orders).map
      (fun x => x.adjusted_total) = some (some (intToDec (max 0 o.total))) := by
  simp only [preparingHandler, h]
  rw [if_pos hp]
  simp only [update_order_status, update_order_unavailable]
  rw [lookup_updateAssoc, if_pos rfl, lookup_updateAssoc, if_pos rfl, h]
  constructor
  · rfl
  · simp [compute_adjusted_total]

/-- Witness for C6 (amended): the concrete store `c6State`, where the
written `adjusted_total` is `"6000"` for a total of 6000. -/
theorem c6_witness :
    (List.lookup "o6" (preparingHandler "o6" [] c6State).orders).map
      (fun x => x.unavailable_items) = some (some "") ∧
    (List.lookup "o6" (preparingHandler "o6" [] c6State).orders).map
      (fun x => x.adjusted_total)
      = some (some (intToDec
          (max 0 (newOrderDoc "2" "Water" 6000 "2026-10-12 09:00:00").total))) :=
  c6_preparing_writes_adjusted_total c6State "o6" _ (by decide) (by decide)

end QRMenu
